import Mathlib

/-!
Verification of the blackjack hit-chance engine (`src/main.cc`).

The engine computes, for a player hand total and a dealer upcard, the exact
win/loss probabilities of standing, of hitting once (following the optimal
policy afterwards), and of the optimal stand/hit policy, against a dealer
drawing uniform cards 1..10 from an infinite deck and standing on 17+.

The C++ works with `double`; the shallow embedding below computes the same
recurrences over `ℚ` (the recurrences are plain field arithmetic — sums,
divisions by 10 and comparisons — applied to the same case structure, so the
embedding is the exact-arithmetic semantics of the source).  Hand totals are
embedded as `ℤ` (the source uses `int`).

Constants of the source: TARGET = 21, MAX_CARD = 10, MAX_SUM = 31.
-/

namespace HitChance

/-- One entry of the dealer memo tables of `computeOptions`
(`dealerBust`/`dealerLess`/`dealerEqual` at a fixed index pair):
the dealer's probability of busting, of finishing strictly below the
player's total, and of finishing equal to it. -/
structure DealerOut where
  bust : ℚ
  less : ℚ
  equal : ℚ

/-- Averaging of the ten per-card accumulator contributions of the
`computeDealer` loop (`accBust / 10`, `accLess / 10`, `accEqual / 10`). -/
def dealerMix (d1 d2 d3 d4 d5 d6 d7 d8 d9 d10 : DealerOut) : DealerOut :=
  ⟨(d1.bust + d2.bust + d3.bust + d4.bust + d5.bust + d6.bust + d7.bust
      + d8.bust + d9.bust + d10.bust) / 10,
   (d1.less + d2.less + d3.less + d4.less + d5.less + d6.less + d7.less
      + d8.less + d9.less + d10.less) / 10,
   (d1.equal + d2.equal + d3.equal + d4.equal + d5.equal + d6.equal + d7.equal
      + d8.equal + d9.equal + d10.equal) / 10⟩

/-- `computeDealer` of `src/main.cc` (lines 43–75), as the value stored in the
dealer memo tables at `[s][pt]`: `s` is the dealer's running total, `pt` the
player's total.  A total above 21 is a bust; on 17..21 the dealer stands and
is compared to `pt`; otherwise one more uniform card 1..10 is drawn, a next
total above `MAX_SUM = 31` counting as an immediate bust (the dead defensive
branch of line 63). -/
def computeDealer (s pt : ℤ) : DealerOut :=
  if h1 : 21 < s then ⟨1, 0, 0⟩
  else if h2 : 17 ≤ s then
    ⟨0, if s < pt then 1 else 0, if s = pt then 1 else 0⟩
  else
    dealerMix
      (if 31 < s + 1 then ⟨1, 0, 0⟩ else computeDealer (s + 1) pt)
      (if 31 < s + 2 then ⟨1, 0, 0⟩ else computeDealer (s + 2) pt)
      (if 31 < s + 3 then ⟨1, 0, 0⟩ else computeDealer (s + 3) pt)
      (if 31 < s + 4 then ⟨1, 0, 0⟩ else computeDealer (s + 4) pt)
      (if 31 < s + 5 then ⟨1, 0, 0⟩ else computeDealer (s + 5) pt)
      (if 31 < s + 6 then ⟨1, 0, 0⟩ else computeDealer (s + 6) pt)
      (if 31 < s + 7 then ⟨1, 0, 0⟩ else computeDealer (s + 7) pt)
      (if 31 < s + 8 then ⟨1, 0, 0⟩ else computeDealer (s + 8) pt)
      (if 31 < s + 9 then ⟨1, 0, 0⟩ else computeDealer (s + 9) pt)
      (if 31 < s + 10 then ⟨1, 0, 0⟩ else computeDealer (s + 10) pt)
termination_by (22 - s).toNat
decreasing_by all_goals omega

theorem computeDealer_bust (s pt : ℤ) (h : 21 < s) :
    computeDealer s pt = ⟨1, 0, 0⟩ := by
  rw [computeDealer]
  rw [dif_pos h]

theorem computeDealer_stand (s pt : ℤ) (h1 : ¬ 21 < s) (h2 : 17 ≤ s) :
    computeDealer s pt
      = ⟨0, if s < pt then 1 else 0, if s = pt then 1 else 0⟩ := by
  rw [computeDealer]
  rw [dif_neg h1, dif_pos h2]

theorem computeDealer_draw (s pt : ℤ) (h : s ≤ 16) :
    computeDealer s pt
      = dealerMix (computeDealer (s + 1) pt) (computeDealer (s + 2) pt)
          (computeDealer (s + 3) pt) (computeDealer (s + 4) pt)
          (computeDealer (s + 5) pt) (computeDealer (s + 6) pt)
          (computeDealer (s + 7) pt) (computeDealer (s + 8) pt)
          (computeDealer (s + 9) pt) (computeDealer (s + 10) pt) := by
  rw [computeDealer]
  rw [dif_neg (by omega : ¬ 21 < s), dif_neg (by omega : ¬ 17 ≤ s)]
  rw [if_neg (by omega : ¬ 31 < s + 1), if_neg (by omega : ¬ 31 < s + 2),
    if_neg (by omega : ¬ 31 < s + 3), if_neg (by omega : ¬ 31 < s + 4),
    if_neg (by omega : ¬ 31 < s + 5), if_neg (by omega : ¬ 31 < s + 6),
    if_neg (by omega : ¬ 31 < s + 7), if_neg (by omega : ¬ 31 < s + 8),
    if_neg (by omega : ¬ 31 < s + 9), if_neg (by omega : ¬ 31 < s + 10)]

/-- Averaging of the ten per-card contributions of a win/loss accumulator
pair, as performed by the `standProbs` and hit loops (`win / 10`,
`loss / 10`). -/
def pairMix (p1 p2 p3 p4 p5 p6 p7 p8 p9 p10 : ℚ × ℚ) : ℚ × ℚ :=
  ((p1.1 + p2.1 + p3.1 + p4.1 + p5.1 + p6.1 + p7.1 + p8.1 + p9.1 + p10.1) / 10,
   (p1.2 + p2.2 + p3.2 + p4.2 + p5.2 + p6.2 + p7.2 + p8.2 + p9.2 + p10.2) / 10)

/-- The body of the hole-card loop of `standProbs` (lines 80–92): the
(win, loss) contribution of one dealer hole card `hole`, against the
upcard `u` and the player total `s`.  A two-card dealer start above
`MAX_SUM = 31` counts as a dealer bust (dead defensive branch of line 82);
otherwise the dealer tables are consulted at `[u + hole][s]`. -/
def standTerm (u s hole : ℤ) : ℚ × ℚ :=
  if 31 < u + hole then (1, 0)
  else
    ((computeDealer (u + hole) s).bust + (computeDealer (u + hole) s).less,
     1 - ((computeDealer (u + hole) s).bust + (computeDealer (u + hole) s).less
          + (computeDealer (u + hole) s).equal))

/-- `standProbs` of `src/main.cc` (lines 77–96): the (win, loss)
probabilities of standing on total `s` against upcard `u`.  A total above
21 is an immediate loss; otherwise the ten hole-card contributions are
averaged. -/
def standProbs (u s : ℤ) : ℚ × ℚ :=
  if 21 < s then (0, 1)
  else
    pairMix (standTerm u s 1) (standTerm u s 2) (standTerm u s 3)
      (standTerm u s 4) (standTerm u s 5) (standTerm u s 6) (standTerm u s 7)
      (standTerm u s 8) (standTerm u s 9) (standTerm u s 10)

theorem standProbs_bust (u s : ℤ) (h : 21 < s) : standProbs u s = (0, 1) := by
  rw [standProbs, if_pos h]

theorem standProbs_stand (u s : ℤ) (h : ¬ 21 < s) :
    standProbs u s
      = pairMix (standTerm u s 1) (standTerm u s 2) (standTerm u s 3)
          (standTerm u s 4) (standTerm u s 5) (standTerm u s 6)
          (standTerm u s 7) (standTerm u s 8) (standTerm u s 9)
          (standTerm u s 10) := by
  rw [standProbs, if_neg h]

/-- `optimal` of `src/main.cc` (lines 102–126): the (win, loss)
probabilities of the optimal stand/hit policy from total `s` against
upcard `u`.  A total above 21 is an absorbing bust; otherwise the action
with the higher win probability is chosen, ties going to standing
(`stand.first >= hitW`, line 119).  The hit value averages the optimal
continuation over the ten next cards.  The memo tables of the source cache
these values unchanged and are omitted. -/
def optimal (u s : ℤ) : ℚ × ℚ :=
  if h : 21 < s then (0, 1)
  else
    if (standProbs u s).1
        ≥ (pairMix (optimal u (s + 1)) (optimal u (s + 2)) (optimal u (s + 3))
            (optimal u (s + 4)) (optimal u (s + 5)) (optimal u (s + 6))
            (optimal u (s + 7)) (optimal u (s + 8)) (optimal u (s + 9))
            (optimal u (s + 10))).1
    then standProbs u s
    else
      pairMix (optimal u (s + 1)) (optimal u (s + 2)) (optimal u (s + 3))
        (optimal u (s + 4)) (optimal u (s + 5)) (optimal u (s + 6))
        (optimal u (s + 7)) (optimal u (s + 8)) (optimal u (s + 9))
        (optimal u (s + 10))
termination_by (22 - s).toNat
decreasing_by all_goals omega

/-- The "hit immediate" value of the report assembly (lines 140–146): the
average over the ten next cards of the optimal continuation.  (The same
expression appears as the internal hit branch of `optimal`.) -/
def hitImmediate (u s : ℤ) : ℚ × ℚ :=
  pairMix (optimal u (s + 1)) (optimal u (s + 2)) (optimal u (s + 3))
    (optimal u (s + 4)) (optimal u (s + 5)) (optimal u (s + 6))
    (optimal u (s + 7)) (optimal u (s + 8)) (optimal u (s + 9))
    (optimal u (s + 10))

theorem optimal_bust (u s : ℤ) (h : 21 < s) : optimal u s = (0, 1) := by
  rw [optimal]
  rw [dif_pos h]

theorem optimal_step (u s : ℤ) (h : ¬ 21 < s) :
    optimal u s
      = if (standProbs u s).1 ≥ (hitImmediate u s).1 then standProbs u s
        else hitImmediate u s := by
  rw [optimal]
  rw [dif_neg h]
  rfl

/-- The `Options` record of `src/main.cc` (lines 18–26). -/
structure Options where
  standWin : ℚ
  standLoss : ℚ
  hitWin : ℚ
  hitLoss : ℚ
  optWin : ℚ
  optLoss : ℚ
  bestAction : String

/-- `computeOptions` of `src/main.cc` (lines 30–154): the report for one
(player total, dealer upcard) pair.  An upcard outside [1,10] returns the
value-initialised record `Options out{}` (all probabilities 0.0, empty
label, line 36).  Otherwise the stand, immediate-hit and optimal values are
assembled, and the label compares the stand win probability with the
immediate-hit win probability (lines 149–151; the intermediate
"bust"/"optimal" label of line 132 is unconditionally overwritten there). -/
def computeOptions (hand_score dealer_upcard : ℤ) : Options :=
  if dealer_upcard < 1 ∨ 10 < dealer_upcard then ⟨0, 0, 0, 0, 0, 0, ""⟩
  else
    ⟨(standProbs dealer_upcard hand_score).1,
     (standProbs dealer_upcard hand_score).2,
     (hitImmediate dealer_upcard hand_score).1,
     (hitImmediate dealer_upcard hand_score).2,
     (optimal dealer_upcard hand_score).1,
     (optimal dealer_upcard hand_score).2,
     if (standProbs dealer_upcard hand_score).1
         > (hitImmediate dealer_upcard hand_score).1 then "stand"
     else if (hitImmediate dealer_upcard hand_score).1
         > (standProbs dealer_upcard hand_score).1 then "hit"
     else "equal"⟩

theorem computeOptions_invalid (hand_score dealer_upcard : ℤ)
    (h : dealer_upcard < 1 ∨ 10 < dealer_upcard) :
    computeOptions hand_score dealer_upcard = ⟨0, 0, 0, 0, 0, 0, ""⟩ := by
  rw [computeOptions, if_pos h]

theorem computeOptions_valid (hand_score dealer_upcard : ℤ)
    (h : ¬ (dealer_upcard < 1 ∨ 10 < dealer_upcard)) :
    computeOptions hand_score dealer_upcard
      = ⟨(standProbs dealer_upcard hand_score).1,
         (standProbs dealer_upcard hand_score).2,
         (hitImmediate dealer_upcard hand_score).1,
         (hitImmediate dealer_upcard hand_score).2,
         (optimal dealer_upcard hand_score).1,
         (optimal dealer_upcard hand_score).2,
         if (standProbs dealer_upcard hand_score).1
             > (hitImmediate dealer_upcard hand_score).1 then "stand"
         else if (hitImmediate dealer_upcard hand_score).1
             > (standProbs dealer_upcard hand_score).1 then "hit"
         else "equal"⟩ := by
  rw [computeOptions, if_neg h]

/-- A dealer-table entry is a sub-probability triple: each component lies in
[0,1] and the three sum to at most 1. -/
def DealerOut.inUnit (d : DealerOut) : Prop :=
  0 ≤ d.bust ∧ d.bust ≤ 1 ∧ 0 ≤ d.less ∧ d.less ≤ 1 ∧ 0 ≤ d.equal
    ∧ d.equal ≤ 1 ∧ d.bust + d.less + d.equal ≤ 1

/-- A (win, loss) pair has both components in [0,1]. -/
def pairInUnit (p : ℚ × ℚ) : Prop :=
  0 ≤ p.1 ∧ p.1 ≤ 1 ∧ 0 ≤ p.2 ∧ p.2 ≤ 1

theorem dealerMix_inUnit (d1 d2 d3 d4 d5 d6 d7 d8 d9 d10 : DealerOut)
    (h1 : d1.inUnit) (h2 : d2.inUnit) (h3 : d3.inUnit) (h4 : d4.inUnit)
    (h5 : d5.inUnit) (h6 : d6.inUnit) (h7 : d7.inUnit) (h8 : d8.inUnit)
    (h9 : d9.inUnit) (h10 : d10.inUnit) :
    (dealerMix d1 d2 d3 d4 d5 d6 d7 d8 d9 d10).inUnit := by
  obtain ⟨a1, b1, c1, e1, f1, g1, k1⟩ := h1
  obtain ⟨a2, b2, c2, e2, f2, g2, k2⟩ := h2
  obtain ⟨a3, b3, c3, e3, f3, g3, k3⟩ := h3
  obtain ⟨a4, b4, c4, e4, f4, g4, k4⟩ := h4
  obtain ⟨a5, b5, c5, e5, f5, g5, k5⟩ := h5
  obtain ⟨a6, b6, c6, e6, f6, g6, k6⟩ := h6
  obtain ⟨a7, b7, c7, e7, f7, g7, k7⟩ := h7
  obtain ⟨a8, b8, c8, e8, f8, g8, k8⟩ := h8
  obtain ⟨a9, b9, c9, e9, f9, g9, k9⟩ := h9
  obtain ⟨a10, b10, c10, e10, f10, g10, k10⟩ := h10
  refine ⟨?_, ?_, ?_, ?_, ?_, ?_, ?_⟩ <;>
    simp only [dealerMix] <;>
    first
    | exact div_nonneg (by linarith) (by norm_num)
    | (rw [div_le_one (by norm_num)]; linarith)
    | (rw [div_add_div_same, div_add_div_same, div_le_one (by norm_num)]
       linarith)

theorem pairMix_inUnit (p1 p2 p3 p4 p5 p6 p7 p8 p9 p10 : ℚ × ℚ)
    (h1 : pairInUnit p1) (h2 : pairInUnit p2) (h3 : pairInUnit p3)
    (h4 : pairInUnit p4) (h5 : pairInUnit p5) (h6 : pairInUnit p6)
    (h7 : pairInUnit p7) (h8 : pairInUnit p8) (h9 : pairInUnit p9)
    (h10 : pairInUnit p10) :
    pairInUnit (pairMix p1 p2 p3 p4 p5 p6 p7 p8 p9 p10) := by
  obtain ⟨a1, b1, c1, e1⟩ := h1
  obtain ⟨a2, b2, c2, e2⟩ := h2
  obtain ⟨a3, b3, c3, e3⟩ := h3
  obtain ⟨a4, b4, c4, e4⟩ := h4
  obtain ⟨a5, b5, c5, e5⟩ := h5
  obtain ⟨a6, b6, c6, e6⟩ := h6
  obtain ⟨a7, b7, c7, e7⟩ := h7
  obtain ⟨a8, b8, c8, e8⟩ := h8
  obtain ⟨a9, b9, c9, e9⟩ := h9
  obtain ⟨a10, b10, c10, e10⟩ := h10
  refine ⟨?_, ?_, ?_, ?_⟩ <;>
    · simp only [pairMix, pairInUnit]
      first
      | exact div_nonneg (by linarith) (by norm_num)
      | · rw [div_le_one (by norm_num)]
          linarith

theorem computeDealer_inUnit (s pt : ℤ) : (computeDealer s pt).inUnit := by
  by_cases h1 : 21 < s
  · rw [computeDealer_bust s pt h1]
    refine ⟨by norm_num, by norm_num, by norm_num, by norm_num, by norm_num,
      by norm_num, by norm_num⟩
  · by_cases h2 : 17 ≤ s
    · rw [computeDealer_stand s pt h1 h2]
      by_cases hlt : s < pt
      · rw [if_pos hlt, if_neg (by omega : ¬ s = pt)]
        refine ⟨by norm_num, by norm_num, by norm_num, by norm_num,
          by norm_num, by norm_num, by norm_num⟩
      · rw [if_neg hlt]
        by_cases heq : s = pt
        · rw [if_pos heq]
          refine ⟨by norm_num, by norm_num, by norm_num, by norm_num,
            by norm_num, by norm_num, by norm_num⟩
        · rw [if_neg heq]
          refine ⟨by norm_num, by norm_num, by norm_num, by norm_num,
            by norm_num, by norm_num, by norm_num⟩
    · rw [computeDealer_draw s pt (by omega)]
      exact dealerMix_inUnit _ _ _ _ _ _ _ _ _ _
        (computeDealer_inUnit (s + 1) pt) (computeDealer_inUnit (s + 2) pt)
        (computeDealer_inUnit (s + 3) pt) (computeDealer_inUnit (s + 4) pt)
        (computeDealer_inUnit (s + 5) pt) (computeDealer_inUnit (s + 6) pt)
        (computeDealer_inUnit (s + 7) pt) (computeDealer_inUnit (s + 8) pt)
        (computeDealer_inUnit (s + 9) pt) (computeDealer_inUnit (s + 10) pt)
termination_by (22 - s).toNat
decreasing_by all_goals omega

theorem standTerm_inUnit (u s hole : ℤ) : pairInUnit (standTerm u s hole) := by
  rw [standTerm]
  by_cases h : 31 < u + hole
  · rw [if_pos h]
    exact ⟨by norm_num, by norm_num, by norm_num, by norm_num⟩
  · rw [if_neg h]
    obtain ⟨a, b, c, e, f, g, k⟩ := computeDealer_inUnit (u + hole) s
    refine ⟨?_, ?_, ?_, ?_⟩ <;> dsimp only <;> linarith

theorem standProbs_inUnit (u s : ℤ) : pairInUnit (standProbs u s) := by
  by_cases h : 21 < s
  · rw [standProbs_bust u s h]
    exact ⟨by norm_num, by norm_num, by norm_num, by norm_num⟩
  · rw [standProbs_stand u s h]
    exact pairMix_inUnit _ _ _ _ _ _ _ _ _ _
      (standTerm_inUnit u s 1) (standTerm_inUnit u s 2)
      (standTerm_inUnit u s 3) (standTerm_inUnit u s 4)
      (standTerm_inUnit u s 5) (standTerm_inUnit u s 6)
      (standTerm_inUnit u s 7) (standTerm_inUnit u s 8)
      (standTerm_inUnit u s 9) (standTerm_inUnit u s 10)

theorem optimal_inUnit (u s : ℤ) : pairInUnit (optimal u s) := by
  by_cases h : 21 < s
  · rw [optimal_bust u s h]
    exact ⟨by norm_num, by norm_num, by norm_num, by norm_num⟩
  · rw [optimal_step u s h]
    by_cases hc : (standProbs u s).1 ≥ (hitImmediate u s).1
    · rw [if_pos hc]
      exact standProbs_inUnit u s
    · rw [if_neg hc]
      rw [hitImmediate]
      exact pairMix_inUnit _ _ _ _ _ _ _ _ _ _
        (optimal_inUnit u (s + 1)) (optimal_inUnit u (s + 2))
        (optimal_inUnit u (s + 3)) (optimal_inUnit u (s + 4))
        (optimal_inUnit u (s + 5)) (optimal_inUnit u (s + 6))
        (optimal_inUnit u (s + 7)) (optimal_inUnit u (s + 8))
        (optimal_inUnit u (s + 9)) (optimal_inUnit u (s + 10))
termination_by (22 - s).toNat
decreasing_by all_goals omega

theorem hitImmediate_inUnit (u s : ℤ) : pairInUnit (hitImmediate u s) := by
  rw [hitImmediate]
  exact pairMix_inUnit _ _ _ _ _ _ _ _ _ _
    (optimal_inUnit u (s + 1)) (optimal_inUnit u (s + 2))
    (optimal_inUnit u (s + 3)) (optimal_inUnit u (s + 4))
    (optimal_inUnit u (s + 5)) (optimal_inUnit u (s + 6))
    (optimal_inUnit u (s + 7)) (optimal_inUnit u (s + 8))
    (optimal_inUnit u (s + 9)) (optimal_inUnit u (s + 10))

/-- The claim's per-card dealer outcome: a next total strictly above 21
contributes the immediate-bust outcome, any other next total the
recursively computed outcome.  Stated from the claim's words, to be
compared with `computeDealer`. -/
def specNextOutcome (s pt v : ℤ) : DealerOut :=
  if 21 < s + v then ⟨1, 0, 0⟩ else computeDealer (s + v) pt

/-- The claim's per-hole-card stand contribution: win = bust + less,
loss = 1 − bust − less − equal, at the dealer start `u + h`.  Stated from
the claim's words, to be compared with `standTerm`. -/
def specHoleTerm (u s h : ℤ) : ℚ × ℚ :=
  ((computeDealer (u + h) s).bust + (computeDealer (u + h) s).less,
   1 - ((computeDealer (u + h) s).bust + (computeDealer (u + h) s).less
        + (computeDealer (u + h) s).equal))

/-- C1: for every player total in [4,21] and dealer upcard in [1,10],
`optimal` returns the (win, loss) pair of whichever of standing and
hitting-with-optimal-continuation has the higher win probability, ties
broken in favour of standing (`standWin ≥ hitWin`), and consequently its
win is at least the win of either action. -/
theorem optimal_picks_higher_win (s u : ℤ) (hs1 : 4 ≤ s) (hs2 : s ≤ 21)
    (hu1 : 1 ≤ u) (hu2 : u ≤ 10) :
    optimal u s
        = (if (standProbs u s).1 ≥ (hitImmediate u s).1 then standProbs u s
           else hitImmediate u s)
      ∧ (standProbs u s).1 ≤ (optimal u s).1
      ∧ (hitImmediate u s).1 ≤ (optimal u s).1 := by
  have hstep := optimal_step u s (by omega)
  refine ⟨hstep, ?_, ?_⟩
  · rw [hstep]
    split_ifs with hc
    · exact le_refl _
    · exact le_of_lt (lt_of_not_ge hc)
  · rw [hstep]
    split_ifs with hc
    · exact hc
    · exact le_refl _

theorem optimal_picks_higher_win_witness :
    optimal 1 4
        = (if (standProbs 1 4).1 ≥ (hitImmediate 1 4).1 then standProbs 1 4
           else hitImmediate 1 4)
      ∧ (standProbs 1 4).1 ≤ (optimal 1 4).1
      ∧ (hitImmediate 1 4).1 ≤ (optimal 1 4).1 :=
  optimal_picks_higher_win 4 1 (by norm_num) (by norm_num) (by norm_num)
    (by norm_num)

/-- C2: for every dealer total in [1,16] and player total in [0,21], the
dealer outcome is the arithmetic mean, over the ten card values, of the
outcome at the next total, a next total strictly above 21 contributing the
immediate-bust outcome. -/
theorem dealer_draw_is_mean (s pt : ℤ) (h1 : 1 ≤ s) (h2 : s ≤ 16)
    (h3 : 0 ≤ pt) (h4 : pt ≤ 21) :
    computeDealer s pt
      = dealerMix (specNextOutcome s pt 1) (specNextOutcome s pt 2)
          (specNextOutcome s pt 3) (specNextOutcome s pt 4)
          (specNextOutcome s pt 5) (specNextOutcome s pt 6)
          (specNextOutcome s pt 7) (specNextOutcome s pt 8)
          (specNextOutcome s pt 9) (specNextOutcome s pt 10) := by
  have key : ∀ v : ℤ, 1 ≤ v → v ≤ 10 →
      specNextOutcome s pt v = computeDealer (s + v) pt := by
    intro v hv1 hv2
    rw [specNextOutcome]
    by_cases hgt : 21 < s + v
    · rw [if_pos hgt, computeDealer_bust (s + v) pt hgt]
    · rw [if_neg hgt]
  rw [computeDealer_draw s pt h2, key 1 (by norm_num) (by norm_num),
    key 2 (by norm_num) (by norm_num), key 3 (by norm_num) (by norm_num),
    key 4 (by norm_num) (by norm_num), key 5 (by norm_num) (by norm_num),
    key 6 (by norm_num) (by norm_num), key 7 (by norm_num) (by norm_num),
    key 8 (by norm_num) (by norm_num), key 9 (by norm_num) (by norm_num),
    key 10 (by norm_num) (by norm_num)]

theorem dealer_draw_is_mean_witness :
    computeDealer 12 17
      = dealerMix (specNextOutcome 12 17 1) (specNextOutcome 12 17 2)
          (specNextOutcome 12 17 3) (specNextOutcome 12 17 4)
          (specNextOutcome 12 17 5) (specNextOutcome 12 17 6)
          (specNextOutcome 12 17 7) (specNextOutcome 12 17 8)
          (specNextOutcome 12 17 9) (specNextOutcome 12 17 10) :=
  dealer_draw_is_mean 12 17 (by norm_num) (by norm_num) (by norm_num)
    (by norm_num)

/-- C3: for every player total in [0,21] and dealer upcard in [1,10], the
stand outcome is one tenth of the sum over the ten hole-card values of the
per-hole contributions win = bust + less and
loss = 1 − bust − less − equal, taken from the dealer outcome at start
`upcard + hole`. -/
theorem stand_is_hole_mean (s u : ℤ) (h1 : 0 ≤ s) (h2 : s ≤ 21)
    (h3 : 1 ≤ u) (h4 : u ≤ 10) :
    standProbs u s
      = pairMix (specHoleTerm u s 1) (specHoleTerm u s 2)
          (specHoleTerm u s 3) (specHoleTerm u s 4) (specHoleTerm u s 5)
          (specHoleTerm u s 6) (specHoleTerm u s 7) (specHoleTerm u s 8)
          (specHoleTerm u s 9) (specHoleTerm u s 10) := by
  have key : ∀ hole : ℤ, 1 ≤ hole → hole ≤ 10 →
      standTerm u s hole = specHoleTerm u s hole := by
    intro hole hh1 hh2
    rw [standTerm, specHoleTerm, if_neg (by omega : ¬ 31 < u + hole)]
  rw [standProbs_stand u s (by omega), key 1 (by norm_num) (by norm_num),
    key 2 (by norm_num) (by norm_num), key 3 (by norm_num) (by norm_num),
    key 4 (by norm_num) (by norm_num), key 5 (by norm_num) (by norm_num),
    key 6 (by norm_num) (by norm_num), key 7 (by norm_num) (by norm_num),
    key 8 (by norm_num) (by norm_num), key 9 (by norm_num) (by norm_num),
    key 10 (by norm_num) (by norm_num)]

theorem stand_is_hole_mean_witness :
    standProbs 6 12
      = pairMix (specHoleTerm 6 12 1) (specHoleTerm 6 12 2)
          (specHoleTerm 6 12 3) (specHoleTerm 6 12 4) (specHoleTerm 6 12 5)
          (specHoleTerm 6 12 6) (specHoleTerm 6 12 7) (specHoleTerm 6 12 8)
          (specHoleTerm 6 12 9) (specHoleTerm 6 12 10) :=
  stand_is_hole_mean 12 6 (by norm_num) (by norm_num) (by norm_num)
    (by norm_num)

/-- C4: for any hand score and any dealer upcard outside [1,10],
`computeOptions` returns the all-zero report with the empty label, hence
no best-action determination. -/
theorem invalid_upcard_zero_report (hand_score dealer_upcard : ℤ)
    (h : dealer_upcard < 1 ∨ 10 < dealer_upcard) :
    computeOptions hand_score dealer_upcard = ⟨0, 0, 0, 0, 0, 0, ""⟩
      ∧ (computeOptions hand_score dealer_upcard).bestAction ≠ "stand"
      ∧ (computeOptions hand_score dealer_upcard).bestAction ≠ "hit"
      ∧ (computeOptions hand_score dealer_upcard).bestAction ≠ "equal" := by
  have hz := computeOptions_invalid hand_score dealer_upcard h
  refine ⟨hz, ?_, ?_, ?_⟩ <;> rw [hz] <;> decide

theorem invalid_upcard_zero_report_witness :
    ((0 : ℤ) < 1 ∨ 10 < (0 : ℤ))
      ∧ (computeOptions 20 0 = ⟨0, 0, 0, 0, 0, 0, ""⟩
          ∧ (computeOptions 20 0).bestAction ≠ "stand"
          ∧ (computeOptions 20 0).bestAction ≠ "hit"
          ∧ (computeOptions 20 0).bestAction ≠ "equal") :=
  ⟨by norm_num, invalid_upcard_zero_report 20 0 (by norm_num)⟩

/-- C5 (counterexample): at dealer total 20 and player total 10 — inside
the claim's quantified ranges — the dealer outcome is terminal with
bust = 0, but neither `less` nor `equal` equals 1, so the claim that
exactly one of them equals 1 fails. -/
theorem dealer_terminal_exactly_one_fails :
    ¬ ((computeDealer 20 10).bust = 0
        ∧ (((computeDealer 20 10).less = 1 ∧ ¬ (computeDealer 20 10).equal = 1)
           ∨ ((computeDealer 20 10).equal = 1
              ∧ ¬ (computeDealer 20 10).less = 1))) := by
  rw [computeDealer_stand 20 10 (by norm_num) (by norm_num)]
  norm_num

/-- C5 (amended): for every dealer total in [17,21] and player total in
[0,21], the dealer outcome is terminal with bust = 0 and at most one of
less / equal equals 1 (never both): less = 1 iff the dealer total is below
the player total, equal = 1 iff they are equal. -/
theorem dealer_terminal_at_most_one (s pt : ℤ) (h1 : 17 ≤ s) (h2 : s ≤ 21)
    (h3 : 0 ≤ pt) (h4 : pt ≤ 21) :
    (computeDealer s pt).bust = 0
      ∧ ¬ ((computeDealer s pt).less = 1 ∧ (computeDealer s pt).equal = 1)
      ∧ ((computeDealer s pt).less = 1 ↔ s < pt)
      ∧ ((computeDealer s pt).equal = 1 ↔ s = pt) := by
  rw [computeDealer_stand s pt (by omega) h1]
  dsimp only
  split_ifs with hlt heq heq
  · exact absurd heq (by omega)
  · exact ⟨rfl, by norm_num, by simp [hlt], by simp [heq]⟩
  · exact ⟨rfl, by norm_num, by simp [hlt], by simp [heq]⟩
  · exact ⟨rfl, by norm_num, by simp [hlt], by simp [heq]⟩

theorem dealer_terminal_at_most_one_witness :
    (computeDealer 21 21).bust = 0
      ∧ ¬ ((computeDealer 21 21).less = 1 ∧ (computeDealer 21 21).equal = 1)
      ∧ ((computeDealer 21 21).less = 1 ↔ (21 : ℤ) < 21)
      ∧ ((computeDealer 21 21).equal = 1 ↔ (21 : ℤ) = 21) :=
  dealer_terminal_at_most_one 21 21 (by norm_num) (by norm_num) (by norm_num)
    (by norm_num)

/-- C6: for every player total strictly above 21 and dealer upcard in
[1,10], both `standProbs` and `optimal` return exactly win = 0,
loss = 1. -/
theorem bust_absorbing (s u : ℤ) (hs : 21 < s) (hu1 : 1 ≤ u)
    (hu2 : u ≤ 10) :
    standProbs u s = (0, 1) ∧ optimal u s = (0, 1) :=
  ⟨standProbs_bust u s hs, optimal_bust u s hs⟩

theorem bust_absorbing_witness :
    standProbs 1 22 = (0, 1) ∧ optimal 1 22 = (0, 1) :=
  bust_absorbing 22 1 (by norm_num) (by norm_num) (by norm_num)

/-- C7: for every dealer upcard in [1,10], the optimal value at player
total 21 equals the stand value at 21 exactly — the optimal policy stands
on 21. -/
theorem optimal_21_stands (u : ℤ) (hu1 : 1 ≤ u) (hu2 : u ≤ 10) :
    optimal u 21 = standProbs u 21 := by
  rw [optimal_step u 21 (by norm_num)]
  have hhit : (hitImmediate u 21).1 = 0 := by
    rw [hitImmediate, optimal_bust u (21 + 1) (by norm_num),
      optimal_bust u (21 + 2) (by norm_num),
      optimal_bust u (21 + 3) (by norm_num),
      optimal_bust u (21 + 4) (by norm_num),
      optimal_bust u (21 + 5) (by norm_num),
      optimal_bust u (21 + 6) (by norm_num),
      optimal_bust u (21 + 7) (by norm_num),
      optimal_bust u (21 + 8) (by norm_num),
      optimal_bust u (21 + 9) (by norm_num),
      optimal_bust u (21 + 10) (by norm_num)]
    norm_num [pairMix]
  rw [if_pos (by rw [hhit]; exact (standProbs_inUnit u 21).1)]

theorem optimal_21_stands_witness : optimal 10 21 = standProbs 10 21 :=
  optimal_21_stands 10 (by norm_num) (by norm_num)

/-- C8: for every player total in [4,21] and dealer upcard in [1,10], the
report's label is "stand" iff the stand win probability strictly exceeds
the immediate one-ply hit win probability (the mean over the ten next
cards of the optimal continuation), "hit" iff it is strictly below, and
"equal" iff the two are equal. -/
theorem bestAction_label_iff (s u : ℤ) (hs1 : 4 ≤ s) (hs2 : s ≤ 21)
    (hu1 : 1 ≤ u) (hu2 : u ≤ 10) :
    ((computeOptions s u).bestAction = "stand"
        ↔ (hitImmediate u s).1 < (standProbs u s).1)
      ∧ ((computeOptions s u).bestAction = "hit"
        ↔ (standProbs u s).1 < (hitImmediate u s).1)
      ∧ ((computeOptions s u).bestAction = "equal"
        ↔ (standProbs u s).1 = (hitImmediate u s).1) := by
  rw [computeOptions_valid s u (by omega)]
  dsimp only
  rcases lt_trichotomy (standProbs u s).1 (hitImmediate u s).1 with hlt | heq | hgt
  · rw [if_neg (by exact not_lt.mpr hlt.le), if_pos hlt]
    exact ⟨⟨fun hc => absurd hc (by decide),
            fun hc => absurd hc (not_lt.mpr hlt.le)⟩,
           ⟨fun _ => hlt, fun _ => rfl⟩,
           ⟨fun hc => absurd hc (by decide), fun hc => absurd hc hlt.ne⟩⟩
  · rw [if_neg (by exact not_lt.mpr heq.le), if_neg (by exact not_lt.mpr heq.ge)]
    exact ⟨⟨fun hc => absurd hc (by decide),
            fun hc => absurd hc (not_lt.mpr heq.le)⟩,
           ⟨fun hc => absurd hc (by decide),
            fun hc => absurd hc (not_lt.mpr heq.ge)⟩,
           ⟨fun _ => heq, fun _ => rfl⟩⟩
  · rw [if_pos hgt]
    exact ⟨⟨fun _ => hgt, fun _ => rfl⟩,
           ⟨fun hc => absurd hc (by decide),
            fun hc => absurd hc (not_lt.mpr hgt.le)⟩,
           ⟨fun hc => absurd hc (by decide), fun hc => absurd hc hgt.ne.symm⟩⟩

theorem bestAction_label_iff_witness :
    ((computeOptions 20 10).bestAction = "stand"
        ↔ (hitImmediate 10 20).1 < (standProbs 10 20).1)
      ∧ ((computeOptions 20 10).bestAction = "hit"
        ↔ (standProbs 10 20).1 < (hitImmediate 10 20).1)
      ∧ ((computeOptions 20 10).bestAction = "equal"
        ↔ (standProbs 10 20).1 = (hitImmediate 10 20).1) :=
  bestAction_label_iff 20 10 (by norm_num) (by norm_num) (by norm_num)
    (by norm_num)

/-- C9: every probability the engine produces is in [0,1] — each dealer
bust/less/equal entry for start totals in [1,31] and player totals in
[0,21], and each stand, hit and optimal win/loss value for upcards in
[1,10] — and every dealer entry satisfies bust + less + equal ≤ 1. -/
theorem engine_probabilities_in_unit :
    (∀ s pt : ℤ, 1 ≤ s → s ≤ 31 → 0 ≤ pt → pt ≤ 21 →
        (computeDealer s pt).inUnit)
      ∧ (∀ u pt : ℤ, 1 ≤ u → u ≤ 10 → 0 ≤ pt → pt ≤ 21 →
          pairInUnit (standProbs u pt) ∧ pairInUnit (hitImmediate u pt)
            ∧ pairInUnit (optimal u pt)) :=
  ⟨fun s pt _ _ _ _ => computeDealer_inUnit s pt,
   fun u pt _ _ _ _ =>
     ⟨standProbs_inUnit u pt, hitImmediate_inUnit u pt, optimal_inUnit u pt⟩⟩

theorem engine_probabilities_in_unit_witness :
    (computeDealer 12 17).inUnit ∧ pairInUnit (optimal 6 12) :=
  ⟨engine_probabilities_in_unit.1 12 17 (by norm_num) (by norm_num)
      (by norm_num) (by norm_num),
   (engine_probabilities_in_unit.2 6 12 (by norm_num) (by norm_num)
      (by norm_num) (by norm_num)).2.2⟩

/-!
Instrumented embedding for the index-safety claim.  The C++ memo tables
are `vector`s sized `MAX_SUM + 1 = 32` by `TARGET + 1 = 22` (dealer
tables) and `32` (`memoWin`/`memoLoss`), indexed with unchecked
`operator[]`.  The variants below return `none` as soon as an access
falls outside the windows asserted by the claim — dealer tables: first
index in [2,26] and second index in [4,21]; `memoWin`/`memoLoss`: index
in [4,31] — and otherwise compute exactly the plain values.  Proving the
instrumented run returns `some` of the plain result shows no access ever
leaves those windows.
-/

/-- Instrumented `computeDealer`: every evaluation at `(s, pt)` touches
the dealer tables at `[s][pt]` (the memo probe of line 45 and the writes),
so it demands `s ∈ [2,26]` and `pt ∈ [4,21]` before doing anything. -/
def computeDealerChk (s pt : ℤ) : Option DealerOut :=
  if hok : 2 ≤ s ∧ s ≤ 26 ∧ 4 ≤ pt ∧ pt ≤ 21 then
    if h1 : 21 < s then some ⟨1, 0, 0⟩
    else if h2 : 17 ≤ s then
      some ⟨0, if s < pt then 1 else 0, if s = pt then 1 else 0⟩
    else
      Option.bind (if 31 < s + 1 then some ⟨1, 0, 0⟩ else computeDealerChk (s + 1) pt) fun d1 =>
      Option.bind (if 31 < s + 2 then some ⟨1, 0, 0⟩ else computeDealerChk (s + 2) pt) fun d2 =>
      Option.bind (if 31 < s + 3 then some ⟨1, 0, 0⟩ else computeDealerChk (s + 3) pt) fun d3 =>
      Option.bind (if 31 < s + 4 then some ⟨1, 0, 0⟩ else computeDealerChk (s + 4) pt) fun d4 =>
      Option.bind (if 31 < s + 5 then some ⟨1, 0, 0⟩ else computeDealerChk (s + 5) pt) fun d5 =>
      Option.bind (if 31 < s + 6 then some ⟨1, 0, 0⟩ else computeDealerChk (s + 6) pt) fun d6 =>
      Option.bind (if 31 < s + 7 then some ⟨1, 0, 0⟩ else computeDealerChk (s + 7) pt) fun d7 =>
      Option.bind (if 31 < s + 8 then some ⟨1, 0, 0⟩ else computeDealerChk (s + 8) pt) fun d8 =>
      Option.bind (if 31 < s + 9 then some ⟨1, 0, 0⟩ else computeDealerChk (s + 9) pt) fun d9 =>
      Option.bind (if 31 < s + 10 then some ⟨1, 0, 0⟩ else computeDealerChk (s + 10) pt) fun d10 =>
      some (dealerMix d1 d2 d3 d4 d5 d6 d7 d8 d9 d10)
  else none
termination_by (22 - s).toNat
decreasing_by all_goals omega

theorem computeDealerChk_eq (s pt : ℤ) (hs1 : 2 ≤ s) (hs2 : s ≤ 26)
    (hp1 : 4 ≤ pt) (hp2 : pt ≤ 21) :
    computeDealerChk s pt = some (computeDealer s pt) := by
  rw [computeDealerChk]
  rw [dif_pos ⟨hs1, hs2, hp1, hp2⟩]
  by_cases h1 : 21 < s
  · rw [dif_pos h1, computeDealer_bust s pt h1]
  · rw [dif_neg h1]
    by_cases h2 : 17 ≤ s
    · rw [dif_pos h2, computeDealer_stand s pt h1 h2]
    · rw [dif_neg h2]
      rw [if_neg (by omega : ¬ 31 < s + 1), if_neg (by omega : ¬ 31 < s + 2),
        if_neg (by omega : ¬ 31 < s + 3), if_neg (by omega : ¬ 31 < s + 4),
        if_neg (by omega : ¬ 31 < s + 5), if_neg (by omega : ¬ 31 < s + 6),
        if_neg (by omega : ¬ 31 < s + 7), if_neg (by omega : ¬ 31 < s + 8),
        if_neg (by omega : ¬ 31 < s + 9), if_neg (by omega : ¬ 31 < s + 10)]
      rw [computeDealerChk_eq (s + 1) pt (by omega) (by omega) hp1 hp2,
        computeDealerChk_eq (s + 2) pt (by omega) (by omega) hp1 hp2,
        computeDealerChk_eq (s + 3) pt (by omega) (by omega) hp1 hp2,
        computeDealerChk_eq (s + 4) pt (by omega) (by omega) hp1 hp2,
        computeDealerChk_eq (s + 5) pt (by omega) (by omega) hp1 hp2,
        computeDealerChk_eq (s + 6) pt (by omega) (by omega) hp1 hp2,
        computeDealerChk_eq (s + 7) pt (by omega) (by omega) hp1 hp2,
        computeDealerChk_eq (s + 8) pt (by omega) (by omega) hp1 hp2,
        computeDealerChk_eq (s + 9) pt (by omega) (by omega) hp1 hp2,
        computeDealerChk_eq (s + 10) pt (by omega) (by omega) hp1 hp2]
      rw [computeDealer_draw s pt (by omega)]
      rfl
termination_by (22 - s).toNat
decreasing_by all_goals omega

/-- Instrumented body of the `standProbs` hole loop: a dealer-table read
at `[u + hole][s]` goes through `computeDealerChk`. -/
def standTermChk (u s hole : ℤ) : Option (ℚ × ℚ) :=
  if 31 < u + hole then some (1, 0)
  else
    Option.bind (computeDealerChk (u + hole) s) fun d =>
      some (d.bust + d.less, 1 - (d.bust + d.less + d.equal))

theorem standTermChk_eq (u s hole : ℤ) (hu1 : 1 ≤ u) (hu2 : u ≤ 10)
    (hh1 : 1 ≤ hole) (hh2 : hole ≤ 10) (hs1 : 4 ≤ s) (hs2 : s ≤ 21) :
    standTermChk u s hole = some (standTerm u s hole) := by
  rw [standTermChk, standTerm, if_neg (by omega : ¬ 31 < u + hole),
    if_neg (by omega : ¬ 31 < u + hole),
    computeDealerChk_eq (u + hole) s (by omega) (by omega) hs1 hs2]
  rfl

/-- Instrumented `standProbs`. -/
def standProbsChk (u s : ℤ) : Option (ℚ × ℚ) :=
  if 21 < s then some (0, 1)
  else
    Option.bind (standTermChk u s 1) fun p1 =>
    Option.bind (standTermChk u s 2) fun p2 =>
    Option.bind (standTermChk u s 3) fun p3 =>
    Option.bind (standTermChk u s 4) fun p4 =>
    Option.bind (standTermChk u s 5) fun p5 =>
    Option.bind (standTermChk u s 6) fun p6 =>
    Option.bind (standTermChk u s 7) fun p7 =>
    Option.bind (standTermChk u s 8) fun p8 =>
    Option.bind (standTermChk u s 9) fun p9 =>
    Option.bind (standTermChk u s 10) fun p10 =>
    some (pairMix p1 p2 p3 p4 p5 p6 p7 p8 p9 p10)

theorem standProbsChk_eq (u s : ℤ) (hu1 : 1 ≤ u) (hu2 : u ≤ 10)
    (hs1 : 4 ≤ s) (hs2 : s ≤ 21) :
    standProbsChk u s = some (standProbs u s) := by
  rw [standProbsChk, if_neg (by omega : ¬ 21 < s),
    standTermChk_eq u s 1 hu1 hu2 (by norm_num) (by norm_num) hs1 hs2,
    standTermChk_eq u s 2 hu1 hu2 (by norm_num) (by norm_num) hs1 hs2,
    standTermChk_eq u s 3 hu1 hu2 (by norm_num) (by norm_num) hs1 hs2,
    standTermChk_eq u s 4 hu1 hu2 (by norm_num) (by norm_num) hs1 hs2,
    standTermChk_eq u s 5 hu1 hu2 (by norm_num) (by norm_num) hs1 hs2,
    standTermChk_eq u s 6 hu1 hu2 (by norm_num) (by norm_num) hs1 hs2,
    standTermChk_eq u s 7 hu1 hu2 (by norm_num) (by norm_num) hs1 hs2,
    standTermChk_eq u s 8 hu1 hu2 (by norm_num) (by norm_num) hs1 hs2,
    standTermChk_eq u s 9 hu1 hu2 (by norm_num) (by norm_num) hs1 hs2,
    standTermChk_eq u s 10 hu1 hu2 (by norm_num) (by norm_num) hs1 hs2,
    standProbs_stand u s (by omega)]
  rfl

/-- Instrumented `optimal`: past the bust test of line 103, the memo
probe `memoWin[s]` of line 104 happens, so the index must lie in
[4,31]. -/
def optimalChk (u s : ℤ) : Option (ℚ × ℚ) :=
  if h1 : 21 < s then some (0, 1)
  else if hok : 4 ≤ s ∧ s ≤ 31 then
    Option.bind (standProbsChk u s) fun st =>
    Option.bind (optimalChk u (s + 1)) fun o1 =>
    Option.bind (optimalChk u (s + 2)) fun o2 =>
    Option.bind (optimalChk u (s + 3)) fun o3 =>
    Option.bind (optimalChk u (s + 4)) fun o4 =>
    Option.bind (optimalChk u (s + 5)) fun o5 =>
    Option.bind (optimalChk u (s + 6)) fun o6 =>
    Option.bind (optimalChk u (s + 7)) fun o7 =>
    Option.bind (optimalChk u (s + 8)) fun o8 =>
    Option.bind (optimalChk u (s + 9)) fun o9 =>
    Option.bind (optimalChk u (s + 10)) fun o10 =>
    if st.1 ≥ (pairMix o1 o2 o3 o4 o5 o6 o7 o8 o9 o10).1 then some st
    else some (pairMix o1 o2 o3 o4 o5 o6 o7 o8 o9 o10)
  else none
termination_by (22 - s).toNat
decreasing_by all_goals omega

theorem optimalChk_eq (u s : ℤ) (hu1 : 1 ≤ u) (hu2 : u ≤ 10) (hs : 4 ≤ s) :
    optimalChk u s = some (optimal u s) := by
  by_cases h1 : 21 < s
  · rw [optimalChk]
    rw [dif_pos h1, optimal_bust u s h1]
  · rw [optimalChk]
    rw [dif_neg h1, dif_pos (⟨hs, by omega⟩ : 4 ≤ s ∧ s ≤ 31)]
    rw [standProbsChk_eq u s hu1 hu2 hs (by omega),
      optimalChk_eq u (s + 1) hu1 hu2 (by omega),
      optimalChk_eq u (s + 2) hu1 hu2 (by omega),
      optimalChk_eq u (s + 3) hu1 hu2 (by omega),
      optimalChk_eq u (s + 4) hu1 hu2 (by omega),
      optimalChk_eq u (s + 5) hu1 hu2 (by omega),
      optimalChk_eq u (s + 6) hu1 hu2 (by omega),
      optimalChk_eq u (s + 7) hu1 hu2 (by omega),
      optimalChk_eq u (s + 8) hu1 hu2 (by omega),
      optimalChk_eq u (s + 9) hu1 hu2 (by omega),
      optimalChk_eq u (s + 10) hu1 hu2 (by omega),
      optimal_step u s h1, hitImmediate]
    rw [apply_ite some]
    rfl
termination_by (22 - s).toNat
decreasing_by all_goals omega

/-- Instrumented top-level hit loop of `computeOptions`
(lines 140–146). -/
def hitLoopChk (u s : ℤ) : Option (ℚ × ℚ) :=
  Option.bind (optimalChk u (s + 1)) fun p1 =>
  Option.bind (optimalChk u (s + 2)) fun p2 =>
  Option.bind (optimalChk u (s + 3)) fun p3 =>
  Option.bind (optimalChk u (s + 4)) fun p4 =>
  Option.bind (optimalChk u (s + 5)) fun p5 =>
  Option.bind (optimalChk u (s + 6)) fun p6 =>
  Option.bind (optimalChk u (s + 7)) fun p7 =>
  Option.bind (optimalChk u (s + 8)) fun p8 =>
  Option.bind (optimalChk u (s + 9)) fun p9 =>
  Option.bind (optimalChk u (s + 10)) fun p10 =>
  some (pairMix p1 p2 p3 p4 p5 p6 p7 p8 p9 p10)

theorem hitLoopChk_eq (u s : ℤ) (hu1 : 1 ≤ u) (hu2 : u ≤ 10) (hs : 4 ≤ s) :
    hitLoopChk u s = some (hitImmediate u s) := by
  rw [hitLoopChk,
    optimalChk_eq u (s + 1) hu1 hu2 (by omega),
    optimalChk_eq u (s + 2) hu1 hu2 (by omega),
    optimalChk_eq u (s + 3) hu1 hu2 (by omega),
    optimalChk_eq u (s + 4) hu1 hu2 (by omega),
    optimalChk_eq u (s + 5) hu1 hu2 (by omega),
    optimalChk_eq u (s + 6) hu1 hu2 (by omega),
    optimalChk_eq u (s + 7) hu1 hu2 (by omega),
    optimalChk_eq u (s + 8) hu1 hu2 (by omega),
    optimalChk_eq u (s + 9) hu1 hu2 (by omega),
    optimalChk_eq u (s + 10) hu1 hu2 (by omega), hitImmediate]
  rfl

/-- Instrumented `computeOptions`. -/
def computeOptionsChk (hand_score dealer_upcard : ℤ) : Option Options :=
  if dealer_upcard < 1 ∨ 10 < dealer_upcard then some ⟨0, 0, 0, 0, 0, 0, ""⟩
  else
    Option.bind (optimalChk dealer_upcard hand_score) fun opt =>
    Option.bind (standProbsChk dealer_upcard hand_score) fun st =>
    Option.bind (hitLoopChk dealer_upcard hand_score) fun hit =>
    some ⟨st.1, st.2, hit.1, hit.2, opt.1, opt.2,
      if st.1 > hit.1 then "stand"
      else if hit.1 > st.1 then "hit"
      else "equal"⟩

/-- C10: for every hand score in [4,21] and dealer upcard in [1,10], the
instrumented run — which fails on any dealer-table access with first index
outside [2,26] or second index outside [4,21], and on any
`memoWin`/`memoLoss` access with index outside [4,31] — succeeds and
returns exactly the plain report: no indexing operation ever leaves those
windows. -/
theorem computeOptions_accesses_in_bounds (hand_score dealer_upcard : ℤ)
    (h1 : 4 ≤ hand_score) (h2 : hand_score ≤ 21) (h3 : 1 ≤ dealer_upcard)
    (h4 : dealer_upcard ≤ 10) :
    computeOptionsChk hand_score dealer_upcard
      = some (computeOptions hand_score dealer_upcard) := by
  rw [computeOptionsChk, if_neg (by omega : ¬ (dealer_upcard < 1 ∨ 10 < dealer_upcard)),
    optimalChk_eq dealer_upcard hand_score h3 h4 h1,
    standProbsChk_eq dealer_upcard hand_score h3 h4 h1 h2,
    hitLoopChk_eq dealer_upcard hand_score h3 h4 h1,
    computeOptions_valid hand_score dealer_upcard (by omega)]
  rfl

theorem computeOptions_accesses_in_bounds_witness :
    computeOptionsChk 4 1 = some (computeOptions 4 1) :=
  computeOptions_accesses_in_bounds 4 1 (by norm_num) (by norm_num)
    (by norm_num) (by norm_num)

end HitChance
